import Mathlib

/-!
Verification of the weather-api repository core logic.

The TypeScript sources are shallowly embedded in Lean:

* JS numbers are modelled as `ℚ`; a possibly-`undefined` number is `Option ℚ`.
* `Number(x.toFixed(d))` is modelled by `roundToDec d` built on `jround`
  (ECMAScript `toFixed` rounds to nearest, ties away from zero), while
  `Math.round` is modelled by `jsMathRound` (ties toward `+∞`).
* Code that can throw a `TypeError` at runtime (such as
  `normalizeLocationName` reading `location.lat.toFixed(4)` when `lat` is
  `undefined`) is modelled with `Option`: `none` is a thrown exception.
* Functions that `throw HttpError` are modelled with `Except HttpError`.
* JS string rendering of numbers (template literals) is modelled by total
  stand-in functions; no theorem below depends on their exact output.
-/

/-- ECMAScript `toFixed` integer rounding: round half away from zero. -/
def jround (q : ℚ) : ℤ :=
  if q < 0 then -⌊-q + 1/2⌋ else ⌊q + 1/2⌋

/-- Model of `Number(x.toFixed(d))`: round `q` to `d` decimal digits. -/
def roundToDec (d : ℕ) (q : ℚ) : ℚ :=
  (jround (q * 10 ^ d) : ℚ) / 10 ^ d

/-- JS `Math.round`: round half toward positive infinity. -/
def jsMathRound (q : ℚ) : ℤ := ⌊q + 1/2⌋

/-- Left-pad a digit string with zeros up to width `d`. -/
def padZeros (s : String) (d : ℕ) : String :=
  String.mk (List.replicate (d - s.length) '0') ++ s

/-- Decimal rendering of `q.toFixed(d)` (sign, integer part, `d` fraction digits). -/
def toFixedStr (q : ℚ) (d : ℕ) : String :=
  let n := jround (q * 10 ^ d)
  let base := 10 ^ d
  let sign := if n < 0 then "-" else ""
  let a := n.natAbs
  if d = 0 then sign ++ toString (a / base)
  else sign ++ toString (a / base) ++ "." ++ padZeros (toString (a % base)) d

/-- Stand-in for JS number-to-string conversion in template literals.
No theorem depends on its output; it only keeps the embedding total. -/
def numToStr (q : ℚ) : String :=
  if q.den = 1 then toString q.num else toString q.num ++ "/" ++ toString q.den

/-- JS template rendering of a possibly-undefined number. -/
def jsNumTemplate : Option ℚ → String
  | none => "undefined"
  | some q => numToStr q

/-- JS truthiness of a possibly-undefined string (`undefined` and `""` are falsy). -/
def strTruthy : Option String → Bool
  | none => false
  | some s => s ≠ ""

/-- JS `String.prototype.trim`: strip leading and trailing whitespace.
Implemented structurally over the character list so that it evaluates
inside the kernel. -/
def jsTrim (s : String) : String :=
  String.mk (((s.data.dropWhile Char.isWhitespace).reverse.dropWhile Char.isWhitespace).reverse)

/- ## Data model (src/interfaces/weather.ts) -/

/-- Model of `Location`: resolved location (all fields optional). -/
structure Location where
  lat : Option ℚ
  lon : Option ℚ
  name : Option String
  country : Option String
deriving DecidableEq

/-- Model of `LocationQuery`: raw location input. -/
structure LocationQuery where
  lat : Option ℚ
  lon : Option ℚ
  city : Option String
deriving DecidableEq

/-- The `precipitation` sub-object of `WeatherData`. -/
structure Precipitation where
  intensity : Option ℚ
  probability : Option ℚ
deriving DecidableEq

/-- Model of `WeatherData`: normalized realtime snapshot.  Numeric fields are
`Option` because `sanitizeWeatherData` defends each with `?? 0`. -/
structure WeatherData where
  location : Location
  timestamp : Option String
  temperature : Option ℚ
  humidity : Option ℚ
  windSpeed : Option ℚ
  windDirection : Option ℚ
  precipitation : Precipitation
  visibility : Option ℚ
  uvIndex : Option ℚ
  cloudCover : Option ℚ
  pressure : Option ℚ
  weatherCode : Option ℤ
  description : String
deriving DecidableEq

/- ## src/utils/weather.ts -/

/-- The `WEATHER_CODES` lookup table (a JS object keyed by integer code). -/
def WEATHER_CODES (c : ℤ) : Option String :=
  match c with
  | 0 => some "Unknown"
  | 1000 => some "Clear"
  | 1100 => some "Mostly Clear"
  | 1101 => some "Partly Cloudy"
  | 1102 => some "Mostly Cloudy"
  | 1001 => some "Cloudy"
  | 2000 => some "Fog"
  | 2100 => some "Light Fog"
  | 4000 => some "Drizzle"
  | 4001 => some "Rain"
  | 4200 => some "Light Rain"
  | 4201 => some "Heavy Rain"
  | 5000 => some "Snow"
  | 5001 => some "Flurries"
  | 5100 => some "Light Snow"
  | 5101 => some "Heavy Snow"
  | 6000 => some "Freezing Drizzle"
  | 6001 => some "Freezing Rain"
  | 6200 => some "Light Freezing Rain"
  | 6201 => some "Heavy Freezing Rain"
  | 7000 => some "Ice Pellets"
  | 7101 => some "Heavy Ice Pellets"
  | 7102 => some "Light Ice Pellets"
  | 8000 => some "Thunderstorm"
  | _ => none

/-- Model of `getWeatherDescription`: `WEATHER_CODES[code] || 'Unknown'`. -/
def getWeatherDescription (c : ℤ) : String :=
  (WEATHER_CODES c).getD "Unknown"

/-- Model of `validateCoordinates`. -/
def validateCoordinates (lat lon : ℚ) : Bool :=
  decide (-90 ≤ lat) && decide (lat ≤ 90) && decide (-180 ≤ lon) && decide (lon ≤ 180)

/-- Result shape of `validateLocationQuery`. -/
structure ValidationResult where
  isValid : Bool
  error : Option String
deriving DecidableEq

/-- Model of `validateLocationQuery`. -/
def validateLocationQuery (q : LocationQuery) : ValidationResult :=
  match q.lat, q.lon with
  | some la, some lo =>
    if !validateCoordinates la lo then
      ⟨false, some "Invalid coordinates: latitude must be -90 to 90, longitude must be -180 to 180"⟩
    else ⟨true, none⟩
  | _, _ =>
    match q.city with
    | some c =>
      if (jsTrim c).length > 0 then
        if (jsTrim c).length < 2 then
          ⟨false, some "City name must be at least 2 characters long"⟩
        else ⟨true, none⟩
      else ⟨false, some "Location must include either lat/lon coordinates or city name"⟩
    | none => ⟨false, some "Location must include either lat/lon coordinates or city name"⟩

/-- Model of `normalizeLocationName`.  Returns `none` for the runtime `TypeError`
raised by `location.lat.toFixed(4)` when `lat` (or `lon`) is `undefined`. -/
def normalizeLocationName (loc : Location) : Option String :=
  if strTruthy loc.name then
    if strTruthy loc.country then
      some (loc.name.getD "" ++ ", " ++ loc.country.getD "")
    else some (loc.name.getD "")
  else
    match loc.lat, loc.lon with
    | some la, some lo => some (toFixedStr la 4 ++ ", " ++ toFixedStr lo 4)
    | _, _ => none

/-- The `name` field computed by `sanitizeWeatherData`:
`data.location.name?.trim() || normalizeLocationName(data.location)`.
`none` models the `TypeError` thrown inside `normalizeLocationName`. -/
def sanitizeName (loc : Location) : Option String :=
  match loc.name with
  | some s => if jsTrim s ≠ "" then some (jsTrim s) else normalizeLocationName loc
  | none => normalizeLocationName loc

/-- The record built by `sanitizeWeatherData` once the `name` field has
been computed (the body of the returned object literal). -/
def sanitizeApply (d : WeatherData) (nm : String) : WeatherData :=
  { d with
      location :=
        { d.location with
          lat := some (roundToDec 4 (d.location.lat.getD 0))
          lon := some (roundToDec 4 (d.location.lon.getD 0))
          name := some nm }
      temperature := some (roundToDec 1 (d.temperature.getD 0))
      humidity := some (roundToDec 1 (d.humidity.getD 0))
      windSpeed := some (roundToDec 1 (d.windSpeed.getD 0))
      windDirection := some (roundToDec 0 (d.windDirection.getD 0))
      precipitation :=
        ⟨some (roundToDec 2 (d.precipitation.intensity.getD 0)),
         some (roundToDec 0 (d.precipitation.probability.getD 0))⟩
      visibility := some (roundToDec 1 (d.visibility.getD 0))
      uvIndex := some (roundToDec 1 (d.uvIndex.getD 0))
      cloudCover := some (roundToDec 0 (d.cloudCover.getD 0))
      pressure := some (roundToDec 1 (d.pressure.getD 0))
      description := getWeatherDescription (d.weatherCode.getD 1000) }

/-- Model of `sanitizeWeatherData`. -/
def sanitizeWeatherData (d : WeatherData) : Option WeatherData :=
  (sanitizeName d.location).map (sanitizeApply d)

/- ## src/utils/httpError.ts -/

/-- Model of `HttpError`: title, detail and HTTP status code. -/
structure HttpError where
  title : String
  detail : String
  code : ℕ
deriving DecidableEq

/-- Model of `HttpError.badRequest` (default title). -/
def HttpError.badRequest (detail : String) : HttpError := ⟨"Bad Request", detail, 400⟩

/-- Model of `HttpError.unauthorized` (default title). -/
def HttpError.unauthorized (detail : String) : HttpError := ⟨"Unauthorized", detail, 401⟩

/-- Model of `HttpError.forbidden` (default title). -/
def HttpError.forbidden (detail : String) : HttpError := ⟨"Forbidden", detail, 403⟩

/-- Model of `HttpError.notFound` (default title). -/
def HttpError.notFound (detail : String) : HttpError := ⟨"Not Found", detail, 404⟩

/-- Model of `HttpError.tooManyRequests` (default title). -/
def HttpError.tooManyRequests (detail : String) : HttpError := ⟨"Too Many Requests", detail, 429⟩

/-- Model of `HttpError.internalServerError` (default title). -/
def HttpError.internalServerError (detail : String) : HttpError :=
  ⟨"Internal Server Error", detail, 500⟩

/- ## src/services/weather/index.ts -/

/-- Model of `resolveLocation`.  `Except.error` models a thrown `HttpError`. -/
def resolveLocation (q : LocationQuery) : Except HttpError Location :=
  let v := validateLocationQuery q
  if !v.isValid then
    .error (HttpError.badRequest (v.error.getD "Invalid location query"))
  else
    match q.lat, q.lon with
    | some la, some lo =>
      if !validateCoordinates la lo then .error (HttpError.badRequest "Invalid coordinates")
      else
        .ok ⟨some la, some lo,
          some (if strTruthy q.city then q.city.getD ""
                else toFixedStr la 4 ++ ", " ++ toFixedStr lo 4), none⟩
    | _, _ =>
      match q.city with
      | some c =>
        if c ≠ "" then .ok ⟨none, none, some c, none⟩
        else .error (HttpError.badRequest "Location must include coordinates or city name")
      | none => .error (HttpError.badRequest "Location must include coordinates or city name")

/- ## Claim C4: totality of the weather-code lookup -/

/-- C4: the weather-code to description lookup is total: every integer code
(negative, zero, or absent from the table) yields a non-empty string, and
every code with no table entry yields exactly "Unknown". -/
theorem getWeatherDescription_total (c : ℤ) :
    getWeatherDescription c ≠ "" ∧
      (WEATHER_CODES c = none → getWeatherDescription c = "Unknown") := by
  constructor
  · unfold getWeatherDescription
    cases h : WEATHER_CODES c with
    | none => decide
    | some s =>
      simp only [Option.getD_some]
      unfold WEATHER_CODES at h
      split at h <;> first | (simp only [Option.some.injEq] at h; subst h; decide) | simp_all
  · intro h
    unfold getWeatherDescription
    rw [h]
    rfl

/-- C4 witness: code 3 has no table entry and maps to "Unknown". -/
theorem getWeatherDescription_total_witness :
    WEATHER_CODES 3 = none ∧ getWeatherDescription 3 = "Unknown" :=
  ⟨rfl, (getWeatherDescription_total 3).2 rfl⟩

/- ## Claims C2 and C3: the Location Resolver -/

/-- Lemma: `validateCoordinates` decides exactly the spec's coordinate ranges. -/
theorem validateCoordinates_iff (la lo : ℚ) :
    validateCoordinates la lo = true ↔ (-90 ≤ la ∧ la ≤ 90 ∧ -180 ≤ lo ∧ lo ≤ 180) := by
  simp [validateCoordinates, and_assoc]

/-- JS truthiness check used by `validateLocationQuery`'s city branch,
read back as a Bool on the optional city: present and at least 2
characters after trimming. -/
def cityAtLeast2 (c : Option String) : Bool :=
  match c with
  | some s => decide (2 ≤ (jsTrim s).length)
  | none => false

/-- C2 counterexample: a query with `lat` but no `lon` **and** a city is
accepted by the resolver as a city query — it is not rejected. -/
theorem resolveLocation_lone_lat_with_city_accepted :
    resolveLocation ⟨some 10, none, some "Paris"⟩ =
      .ok ⟨none, none, some "Paris", none⟩ := by
  rfl

/-- C2 (amended): a lone coordinate (lat without lon or vice versa) is
rejected with a 400 error only when no usable city accompanies it; with a
city of at least 2 trimmed characters the query is accepted as a city-only
query and the dangling coordinate is ignored. -/
theorem resolveLocation_lone_coordinate (q : LocationQuery)
    (h : q.lat.isSome ≠ q.lon.isSome) :
    (cityAtLeast2 q.city = true →
       ∃ c, q.city = some c ∧ resolveLocation q = .ok ⟨none, none, some c, none⟩) ∧
    (cityAtLeast2 q.city = false →
       ∃ e, resolveLocation q = .error e ∧ e.code = 400) := by
  obtain ⟨lat, lon, city⟩ := q
  cases lat <;> cases lon <;> simp only [Option.isSome] at h <;> try exact absurd rfl h
  all_goals {
    cases city with
    | none => exact ⟨fun habs => by simp [cityAtLeast2] at habs, fun _ => ⟨_, rfl, rfl⟩⟩
    | some c =>
      constructor
      · intro htrue
        have h2 : 2 ≤ (jsTrim c).length := by simpa [cityAtLeast2] using htrue
        have hpos : 0 < (jsTrim c).length := lt_of_lt_of_le (by norm_num) h2
        have hlen : ("" : String).length = 0 := rfl
        have hne : c ≠ "" := by
          intro hc
          subst hc
          have hz : (jsTrim "").length = 0 := rfl
          omega
        refine ⟨c, rfl, ?_⟩
        simp [resolveLocation, validateLocationQuery, hpos, Nat.not_lt.2 h2, hne]
      · intro hfalse
        have h2 : (jsTrim c).length < 2 := by simpa [cityAtLeast2] using hfalse
        by_cases hpos : 0 < (jsTrim c).length
        · exact ⟨HttpError.badRequest "City name must be at least 2 characters long",
            by simp [resolveLocation, validateLocationQuery, hpos, h2], rfl⟩
        · exact ⟨HttpError.badRequest
              "Location must include either lat/lon coordinates or city name",
            by simp [resolveLocation, validateLocationQuery, hpos], rfl⟩
  }

/-- C2 witness: lone lat with city "Lyon" is accepted; lone lon with no
city is rejected with a 400 error. -/
theorem resolveLocation_lone_coordinate_witness :
    (∃ c, (some "Lyon" : Option String) = some c ∧
       resolveLocation ⟨some 5, none, some "Lyon"⟩ = .ok ⟨none, none, some c, none⟩) ∧
    (∃ e, resolveLocation ⟨none, some 7, none⟩ = .error e ∧ e.code = 400) :=
  ⟨(resolveLocation_lone_coordinate ⟨some 5, none, some "Lyon"⟩ (by decide)).1 (by decide),
   (resolveLocation_lone_coordinate ⟨none, some 7, none⟩ (by decide)).2 (by decide)⟩

/-- C3: with both lat and lon supplied, in-range pairs are accepted and the
resolved Location carries exactly those coordinates; an out-of-range lat or
lon is rejected with a 400 validation error, city or not. -/
theorem resolveLocation_coordinate_pair (q : LocationQuery) (la lo : ℚ)
    (hla : q.lat = some la) (hlo : q.lon = some lo) :
    ((-90 ≤ la ∧ la ≤ 90 ∧ -180 ≤ lo ∧ lo ≤ 180) →
       ∃ nm, resolveLocation q = .ok ⟨some la, some lo, some nm, none⟩) ∧
    (¬(-90 ≤ la ∧ la ≤ 90 ∧ -180 ≤ lo ∧ lo ≤ 180) →
       ∃ e, resolveLocation q = .error e ∧ e.code = 400) := by
  obtain ⟨lat, lon, city⟩ := q
  simp only at hla hlo
  subst hla hlo
  constructor
  · intro hrange
    have hv : validateCoordinates la lo = true := (validateCoordinates_iff la lo).2 hrange
    refine ⟨if strTruthy city then city.getD ""
            else toFixedStr la 4 ++ ", " ++ toFixedStr lo 4, ?_⟩
    simp [resolveLocation, validateLocationQuery, hv]
  · intro hrange
    have hv : validateCoordinates la lo = false := by
      cases hb : validateCoordinates la lo
      · rfl
      · exact absurd ((validateCoordinates_iff la lo).1 hb) hrange
    exact ⟨HttpError.badRequest
        "Invalid coordinates: latitude must be -90 to 90, longitude must be -180 to 180",
      by simp [resolveLocation, validateLocationQuery, hv], rfl⟩

/-- C3 witness: (10, 20) is accepted with those coordinates; (999, 0) is
rejected with a 400 error even though a city is supplied. -/
theorem resolveLocation_coordinate_pair_witness :
    (∃ nm, resolveLocation ⟨some 10, some 20, none⟩ = .ok ⟨some 10, some 20, some nm, none⟩) ∧
    (∃ e, resolveLocation ⟨some 999, some 0, some "Oslo"⟩ = .error e ∧ e.code = 400) :=
  ⟨(resolveLocation_coordinate_pair ⟨some 10, some 20, none⟩ 10 20 rfl rfl).1 (by norm_num),
   (resolveLocation_coordinate_pair ⟨some 999, some 0, some "Oslo"⟩ 999 0 rfl rfl).2
     (by norm_num)⟩

/- ## Claims C5, C6, C10: sanitizeWeatherData -/

/-- Lemma: `jround` fixes every integer. -/
theorem jround_intCast (n : ℤ) : jround (n : ℚ) = n := by
  unfold jround
  have h2 : ⌊(1/2 : ℚ)⌋ = 0 := by norm_num
  split
  · rw [← Int.cast_neg, Int.floor_int_add, h2]
    omega
  · rw [Int.floor_int_add, h2]
    omega

/-- Rounding to `d` decimals is idempotent. -/
theorem roundToDec_roundToDec (d : ℕ) (q : ℚ) :
    roundToDec d (roundToDec d q) = roundToDec d q := by
  unfold roundToDec
  rw [div_mul_cancel₀ _ (by positivity : ((10 : ℚ) ^ d) ≠ 0), jround_intCast]

/-- Rounding fixes zero. -/
theorem roundToDec_zeroQ (d : ℕ) : roundToDec d 0 = 0 := by
  unfold roundToDec jround
  norm_num

/-- A string of the shape `a ++ ", " ++ b` is never empty. -/
theorem concat_comma_ne_empty (a b : String) : a ++ ", " ++ b ≠ "" := by
  intro h
  have hlen := congrArg String.length h
  have h2 : (", " : String).length = 2 := rfl
  have h0 : ("" : String).length = 0 := rfl
  simp [String.length_append, h2, h0] at hlen

/-- Lemma: `normalizeLocationName` never returns the empty string. -/
theorem normalizeLocationName_ne_empty (loc : Location) (nm : String)
    (h : normalizeLocationName loc = some nm) : nm ≠ "" := by
  unfold normalizeLocationName at h
  by_cases hn : strTruthy loc.name
  · rw [if_pos hn] at h
    cases hname : loc.name with
    | none => rw [hname] at hn; exact absurd hn (by simp [strTruthy])
    | some s =>
      have hs : s ≠ "" := by
        rw [hname] at hn
        simpa [strTruthy] using hn
      by_cases hc : strTruthy loc.country
      · rw [if_pos hc] at h
        obtain rfl : loc.name.getD "" ++ ", " ++ loc.country.getD "" = nm :=
          Option.some.inj h
        exact concat_comma_ne_empty _ _
      · rw [if_neg hc] at h
        obtain rfl : loc.name.getD "" = nm := Option.some.inj h
        rw [hname]
        exact hs
  · rw [if_neg hn] at h
    cases hla : loc.lat with
    | none => rw [hla] at h; cases hlo : loc.lon <;> rw [hlo] at h <;> exact absurd h (by simp)
    | some la =>
      cases hlo : loc.lon with
      | none => rw [hla, hlo] at h; exact absurd h (by simp)
      | some lo =>
        rw [hla, hlo] at h
        obtain rfl : toFixedStr la 4 ++ ", " ++ toFixedStr lo 4 = nm := Option.some.inj h
        exact concat_comma_ne_empty _ _

/-- Lemma: `sanitizeName` never returns the empty string. -/
theorem sanitizeName_ne_empty (loc : Location) (nm : String)
    (h : sanitizeName loc = some nm) : nm ≠ "" := by
  unfold sanitizeName at h
  split at h
  · rename_i s _
    by_cases ht : jsTrim s ≠ ""
    · rw [if_pos ht] at h
      obtain rfl : jsTrim s = nm := Option.some.inj h
      exact ht
    · rw [if_neg ht] at h
      exact normalizeLocationName_ne_empty loc nm h
  · exact normalizeLocationName_ne_empty loc nm h

/-- Lemma: `sanitizeName` succeeds on any location whose `name` is a non-empty string. -/
theorem sanitizeName_isSome_of_ne (loc : Location) (nm : String)
    (h : loc.name = some nm) (hne : nm ≠ "") : ∃ r, sanitizeName loc = some r := by
  have hgoal : sanitizeName loc =
      if jsTrim nm ≠ "" then some (jsTrim nm) else normalizeLocationName loc := by
    unfold sanitizeName
    rw [h]
  rw [hgoal]
  by_cases ht : jsTrim nm ≠ ""
  · rw [if_pos ht]
    exact ⟨_, rfl⟩
  · rw [if_neg ht]
    unfold normalizeLocationName
    have hn : strTruthy loc.name = true := by rw [h]; simpa [strTruthy] using hne
    rw [if_pos hn]
    by_cases hc : strTruthy loc.country
    · rw [if_pos hc]; exact ⟨_, rfl⟩
    · rw [if_neg hc]; exact ⟨_, rfl⟩

/-- An input on which `sanitizeWeatherData` throws: every numeric field is
present, but the location has neither a name nor coordinates, so the
`normalizeLocationName` fallback reads `undefined.toFixed(4)`. -/
def sanitizeCrashAllNumeric : WeatherData :=
  ⟨⟨none, none, none, none⟩, none, some 1, some 2, some 3, some 4,
   ⟨some 5, some 6⟩, some 7, some 8, some 9, some 10, some 1000, "Clear"⟩

/-- C5 counterexample: on a `WeatherData` whose location lacks both a name
and coordinates, `sanitizeWeatherData` throws (returns no output at all),
so it does not round "every" input's numeric fields. -/
theorem sanitizeWeatherData_rounding_counterexample :
    sanitizeWeatherData sanitizeCrashAllNumeric = none := rfl

/-- C5 (amended): whenever `sanitizeWeatherData` produces an output, every
numeric field of that output is rounded to its fixed decimal precision:
temperature, humidity, wind speed, visibility, UV index and pressure to 1
decimal; wind direction, cloud cover and precipitation probability to 0
decimals; precipitation intensity to 2 decimals. -/
theorem sanitizeWeatherData_rounding (d out : WeatherData)
    (h : sanitizeWeatherData d = some out) :
    out.temperature = some (roundToDec 1 (d.temperature.getD 0)) ∧
    out.humidity = some (roundToDec 1 (d.humidity.getD 0)) ∧
    out.windSpeed = some (roundToDec 1 (d.windSpeed.getD 0)) ∧
    out.visibility = some (roundToDec 1 (d.visibility.getD 0)) ∧
    out.uvIndex = some (roundToDec 1 (d.uvIndex.getD 0)) ∧
    out.pressure = some (roundToDec 1 (d.pressure.getD 0)) ∧
    out.windDirection = some (roundToDec 0 (d.windDirection.getD 0)) ∧
    out.cloudCover = some (roundToDec 0 (d.cloudCover.getD 0)) ∧
    out.precipitation.probability = some (roundToDec 0 (d.precipitation.probability.getD 0)) ∧
    out.precipitation.intensity = some (roundToDec 2 (d.precipitation.intensity.getD 0)) := by
  unfold sanitizeWeatherData at h
  obtain ⟨nm, h1, h2⟩ := Option.map_eq_some'.1 h
  subst h2
  exact ⟨rfl, rfl, rfl, rfl, rfl, rfl, rfl, rfl, rfl, rfl⟩

/-- A well-formed sanitizer input used by witnesses: a named location and
fractional numeric values. -/
def weatherSample : WeatherData :=
  ⟨⟨some (1/3), some (2/3), some "Tel Aviv", none⟩, some "2024-01-01", some (5/4),
   some (7/3), some (1/6), some (9/2), ⟨some (1/8), some (3/7)⟩, some (22/7),
   some (13/6), some (5/9), some (4077/4), some 1000, "Clear"⟩

/-- C5 witness: the sample input sanitizes successfully and its output
fields carry the rounded values. -/
theorem sanitizeWeatherData_rounding_witness :
    ∃ out, sanitizeWeatherData weatherSample = some out ∧
      out.temperature = some (roundToDec 1 (5/4)) ∧
      out.precipitation.intensity = some (roundToDec 2 (1/8)) := by
  have h : sanitizeWeatherData weatherSample =
      some ((sanitizeWeatherData weatherSample).getD weatherSample) := rfl
  exact ⟨_, h, (sanitizeWeatherData_rounding weatherSample _ h).1,
    (sanitizeWeatherData_rounding weatherSample _ h).2.2.2.2.2.2.2.2.2⟩

/-- C6: sanitization is idempotent — re-sanitizing a sanitizer output
succeeds and reproduces every numeric field (and the description)
unchanged. -/
theorem sanitizeWeatherData_idempotent (d out : WeatherData)
    (h : sanitizeWeatherData d = some out) :
    ∃ out2, sanitizeWeatherData out = some out2 ∧
      out2.temperature = out.temperature ∧
      out2.humidity = out.humidity ∧
      out2.windSpeed = out.windSpeed ∧
      out2.windDirection = out.windDirection ∧
      out2.precipitation = out.precipitation ∧
      out2.visibility = out.visibility ∧
      out2.uvIndex = out.uvIndex ∧
      out2.cloudCover = out.cloudCover ∧
      out2.pressure = out.pressure ∧
      out2.location.lat = out.location.lat ∧
      out2.location.lon = out.location.lon ∧
      out2.description = out.description := by
  unfold sanitizeWeatherData at h
  obtain ⟨nm, h1, h2⟩ := Option.map_eq_some'.1 h
  subst h2
  have hnm : nm ≠ "" := sanitizeName_ne_empty _ _ h1
  obtain ⟨r, hr⟩ := sanitizeName_isSome_of_ne (sanitizeApply d nm).location nm rfl hnm
  have hs : sanitizeWeatherData (sanitizeApply d nm) =
      some (sanitizeApply (sanitizeApply d nm) r) := by
    unfold sanitizeWeatherData
    rw [hr, Option.map_some']
  refine ⟨sanitizeApply (sanitizeApply d nm) r, hs, ?_, ?_, ?_, ?_, ?_, ?_, ?_, ?_, ?_, ?_,
    ?_, ?_⟩
  all_goals simp [sanitizeApply, roundToDec_roundToDec]

/-- C6 witness: re-sanitizing the sanitized sample reproduces its numeric
fields. -/
theorem sanitizeWeatherData_idempotent_witness :
    ∃ out2, sanitizeWeatherData ((sanitizeWeatherData weatherSample).getD weatherSample) =
        some out2 ∧
      out2.temperature = ((sanitizeWeatherData weatherSample).getD weatherSample).temperature := by
  have h : sanitizeWeatherData weatherSample =
      some ((sanitizeWeatherData weatherSample).getD weatherSample) := rfl
  obtain ⟨out2, hout, ht, -⟩ := sanitizeWeatherData_idempotent weatherSample _ h
  exact ⟨out2, hout, ht⟩

/-- An input on which `sanitizeWeatherData` throws and whose `weatherCode`
and numeric fields are all absent. -/
def allAbsentNoName : WeatherData :=
  ⟨⟨none, none, none, none⟩, none, none, none, none, none,
   ⟨none, none⟩, none, none, none, none, none, "x"⟩

/-- C10 counterexample: with `weatherCode` and the location fields all
absent, `sanitizeWeatherData` throws instead of producing an output with
description "Clear" and zeroed fields. -/
theorem sanitizeWeatherData_defaults_counterexample :
    sanitizeWeatherData allAbsentNoName = none := rfl

/-- C10 (amended): whenever `sanitizeWeatherData` produces an output, an
absent `weatherCode` yields description "Clear" (the code defaults to 1000,
not to "Unknown"), and every absent numeric field — including the location
coordinates — is replaced by 0. -/
theorem sanitizeWeatherData_absent_defaults (d out : WeatherData)
    (h : sanitizeWeatherData d = some out) :
    (d.weatherCode = none → out.description = "Clear") ∧
    (d.temperature = none → out.temperature = some 0) ∧
    (d.humidity = none → out.humidity = some 0) ∧
    (d.windSpeed = none → out.windSpeed = some 0) ∧
    (d.windDirection = none → out.windDirection = some 0) ∧
    (d.precipitation.intensity = none → out.precipitation.intensity = some 0) ∧
    (d.precipitation.probability = none → out.precipitation.probability = some 0) ∧
    (d.visibility = none → out.visibility = some 0) ∧
    (d.uvIndex = none → out.uvIndex = some 0) ∧
    (d.cloudCover = none → out.cloudCover = some 0) ∧
    (d.pressure = none → out.pressure = some 0) ∧
    (d.location.lat = none → out.location.lat = some 0) ∧
    (d.location.lon = none → out.location.lon = some 0) := by
  unfold sanitizeWeatherData at h
  obtain ⟨nm, h1, h2⟩ := Option.map_eq_some'.1 h
  subst h2
  refine ⟨?_, ?_, ?_, ?_, ?_, ?_, ?_, ?_, ?_, ?_, ?_, ?_, ?_⟩
  · intro hx
    simp only [sanitizeApply, hx, Option.getD_none]
    rfl
  all_goals intro hx
  all_goals simp [sanitizeApply, hx, roundToDec_zeroQ]

/-- A sanitizer input with a usable name but every numeric field and the
weather code absent. -/
def allAbsentNamed : WeatherData :=
  ⟨⟨none, none, some "Negev", none⟩, none, none, none, none, none,
   ⟨none, none⟩, none, none, none, none, none, "x"⟩

/-- C10 witness: the all-absent named input sanitizes to description
"Clear" with zeroed fields. -/
theorem sanitizeWeatherData_absent_defaults_witness :
    ∃ out, sanitizeWeatherData allAbsentNamed = some out ∧
      out.description = "Clear" ∧ out.temperature = some 0 ∧
      out.location.lat = some 0 := by
  have h : sanitizeWeatherData allAbsentNamed =
      some ((sanitizeWeatherData allAbsentNamed).getD allAbsentNamed) := rfl
  obtain ⟨hdesc, htemp, -, -, -, -, -, -, -, -, -, hlat, -⟩ :=
    sanitizeWeatherData_absent_defaults allAbsentNamed _ h
  exact ⟨_, h, hdesc rfl, htemp rfl, hlat rfl⟩

/- ## Claim C1: getBatchWeather (best-effort batch aggregation) -/

/-- Location projection in `transformToEssentialData`. -/
structure EssentialLocation where
  name : String
  lat : Option ℚ
  lon : Option ℚ
  country : Option String
deriving DecidableEq

/-- The "essential" projection returned by the batch endpoint. -/
structure EssentialData where
  location : EssentialLocation
  temperature : Option ℚ
  windSpeed : Option ℚ
  windDirection : Option ℚ
  precipitation : Precipitation
  condition : String
  timestamp : Option String
deriving DecidableEq

/-- Model of `transformToEssentialData`. -/
def transformToEssentialData (w : WeatherData) : EssentialData :=
  { location :=
      { name := if strTruthy w.location.name then w.location.name.getD ""
                else jsNumTemplate w.location.lat ++ ", " ++ jsNumTemplate w.location.lon
        lat := w.location.lat
        lon := w.location.lon
        country := w.location.country }
    temperature := w.temperature
    windSpeed := w.windSpeed
    windDirection := w.windDirection
    precipitation := ⟨w.precipitation.intensity, w.precipitation.probability⟩
    condition := w.description
    timestamp := w.timestamp }

/-- Model of `Promise.allSettled` + `filter fulfilled` + `map value`: keep the value
of a fulfilled per-location fetch, drop a rejected one. -/
def settledValue : Except HttpError WeatherData → Option WeatherData
  | .ok w => some w
  | .error _ => none

/-- Model of `getBatchWeather`, parametrized by the per-location pipeline
(`getRealTimeWeatherData`), whose settled outcome per query is an
`Except`.  `Promise.allSettled` preserves input order, so the settled
results are the map of the fetch over the queries. -/
def getBatchWeather (fetchWeather : LocationQuery → Except HttpError WeatherData)
    (locationQueries : List LocationQuery) : Except HttpError (List EssentialData) :=
  if locationQueries.length = 0 then
    .error (HttpError.badRequest "Locations array is required")
  else if locationQueries.length > 10 then
    .error (HttpError.badRequest "Maximum 10 locations allowed")
  else
    .ok (((locationQueries.map fetchWeather).filterMap settledValue).map
      transformToEssentialData)

/-- The length of a `filterMap` counts the elements on which `f` is `some`. -/
theorem length_filterMap_eq_countP {α β : Type _} (f : α → Option β) (l : List α) :
    (l.filterMap f).length = l.countP fun a => (f a).isSome := by
  induction l with
  | nil => rfl
  | cons a t ih =>
    cases h : f a <;> simp [List.filterMap_cons, h, List.countP_cons, ih]

/-- Transport a `List.get` along an equality of lists. -/
theorem list_get_congr {β : Type _} {l1 l2 : List β} (h : l1 = l2) (k : ℕ)
    (hk1 : k < l1.length) : l1.get ⟨k, hk1⟩ = l2.get ⟨k, h ▸ hk1⟩ := by
  cases h
  rfl

/-- Positional description of `filterMap`: the `k`-th output element comes
from the input position `j` holding the `k`-th success, with exactly `k`
successes strictly before `j`. -/
theorem filterMap_pos_spec {α β : Type _} (f : α → Option β) :
    ∀ (l : List α) (k : ℕ) (hk : k < (l.filterMap f).length),
      ∃ j, ∃ hj : j < l.length, ∃ b, f (l.get ⟨j, hj⟩) = some b ∧
        (l.filterMap f).get ⟨k, hk⟩ = b ∧ ((l.take j).filterMap f).length = k := by
  intro l
  induction l with
  | nil => intro k hk; simp at hk
  | cons a t ih =>
    intro k hk
    cases hfa : f a with
    | none =>
      have he : (a :: t).filterMap f = t.filterMap f := by
        simp [List.filterMap_cons, hfa]
      have hk' : k < (t.filterMap f).length := he ▸ hk
      obtain ⟨j, hj, b, hb1, hb2, hb3⟩ := ih k hk'
      refine ⟨j + 1, Nat.succ_lt_succ hj, b, hb1, ?_, ?_⟩
      · rw [list_get_congr he k hk]
        exact hb2
      · simp [List.take_succ_cons, List.filterMap_cons, hfa, hb3]
    | some b0 =>
      have he : (a :: t).filterMap f = b0 :: t.filterMap f := by
        simp [List.filterMap_cons, hfa]
      cases k with
      | zero =>
        refine ⟨0, Nat.succ_pos _, b0, hfa, ?_, ?_⟩
        · rw [list_get_congr he 0 hk]
          rfl
        · simp
      | succ k2 =>
        have hk' : k2 < (t.filterMap f).length := by
          have hx := hk
          rw [he] at hx
          simpa using hx
        obtain ⟨j, hj, b, hb1, hb2, hb3⟩ := ih k2 hk'
        refine ⟨j + 1, Nat.succ_lt_succ hj, b, hb1, ?_, ?_⟩
        · rw [list_get_congr he (k2 + 1) hk]
          exact hb2
        · simp [List.take_succ_cons, List.filterMap_cons, hfa, hb3]

/-- C1: for 1–10 queries, the batch aggregator never errors regardless of
how many per-location fetches fail; it returns exactly one item per
successful fetch, and the `k`-th returned item is the essential projection
of the `k`-th successful input position (order preserved). -/
theorem getBatchWeather_best_effort
    (fetchWeather : LocationQuery → Except HttpError WeatherData)
    (qs : List LocationQuery) (h1 : 1 ≤ qs.length) (h2 : qs.length ≤ 10) :
    ∃ out, getBatchWeather fetchWeather qs = .ok out ∧
      out.length = (qs.countP fun q => (settledValue (fetchWeather q)).isSome) ∧
      ∀ k (hk : k < out.length), ∃ j, ∃ hj : j < qs.length, ∃ w,
        fetchWeather (qs.get ⟨j, hj⟩) = .ok w ∧
        out.get ⟨k, hk⟩ = transformToEssentialData w ∧
        ((qs.take j).countP fun q => (settledValue (fetchWeather q)).isSome) = k := by
  have hout : getBatchWeather fetchWeather qs =
      .ok (qs.filterMap fun q => (settledValue (fetchWeather q)).map transformToEssentialData) := by
    unfold getBatchWeather
    rw [if_neg (by omega), if_neg (by omega)]
    rw [List.filterMap_map, List.map_filterMap]
    rfl
  refine ⟨_, hout, ?_, ?_⟩
  · rw [length_filterMap_eq_countP]
    refine List.countP_congr ?_
    intro q _
    cases hs : settledValue (fetchWeather q) <;> simp [hs]
  · intro k hk
    obtain ⟨j, hj, b, hb1, hb2, hb3⟩ := filterMap_pos_spec
      (fun q => (settledValue (fetchWeather q)).map transformToEssentialData) qs k hk
    cases hf : fetchWeather (qs.get ⟨j, hj⟩) with
    | error e => rw [hf] at hb1; simp [settledValue] at hb1
    | ok w =>
      rw [hf] at hb1
      simp only [settledValue, Option.map_some', Option.some.injEq] at hb1
      refine ⟨j, hj, w, hf, ?_, ?_⟩
      · rw [hb2, ← hb1]
      · rw [← hb3, length_filterMap_eq_countP]
        refine List.countP_congr ?_
        intro q _
        cases hs : settledValue (fetchWeather q) <;> simp [hs]

/-- Batch fixture: "OK" succeeds with the sample snapshot, anything else
fails. -/
def batchFetchSample : LocationQuery → Except HttpError WeatherData :=
  fun q => if q.city = some "OK" then .ok weatherSample
           else .error (HttpError.notFound "Location not found")

/-- Batch fixture queries: one success between two failures. -/
def batchQueriesSample : List LocationQuery :=
  [⟨none, none, some "BAD"⟩, ⟨none, none, some "OK"⟩, ⟨none, none, some "NOPE"⟩]

/-- C1 witness: on one success among three queries the batch returns ok
with exactly one item. -/
theorem getBatchWeather_best_effort_witness :
    ∃ out, getBatchWeather batchFetchSample batchQueriesSample = .ok out ∧
      out.length = 1 := by
  obtain ⟨out, hout, hlen, -⟩ :=
    getBatchWeather_best_effort batchFetchSample batchQueriesSample (by decide) (by decide)
  refine ⟨out, hout, ?_⟩
  rw [hlen]
  decide

/- ## Claim C7: token validation (src/utils/token.ts, src/middlewares auth) -/

/-- Decoded JWT claims: standard expiry / not-before plus an uninterpreted
payload. -/
structure Claims where
  exp : Option ℤ
  nbf : Option ℤ
  payload : List (String × String)
deriving DecidableEq

/-- Modelled from the spec: the wire form of a token handed to the
`jsonwebtoken` library (which is a third-party dependency, not part of
src/).  A token string is either syntactically malformed or a well-formed
JWT carrying its claims and the secret it was signed with. -/
inductive TokenStr where
  | malformed (raw : String)
  | signed (secret : String) (claims : Claims)
deriving DecidableEq

/-- Whether the raw token string is blank (`!token?.trim()`): a signed JWT
serialization is never blank. -/
def tokenIsBlank : TokenStr → Bool
  | .malformed raw => jsTrim raw = ""
  | .signed _ _ => false

/-- JS string falsiness of the token value (only `""` is falsy). -/
def tokenFalsy : TokenStr → Bool
  | .malformed raw => raw = ""
  | .signed _ _ => false

/-- Error classes thrown by `jsonwebtoken.verify`. -/
inductive JwtVerifyError where
  | tokenExpired
  | jsonWebToken
  | notBefore
  | otherError
deriving DecidableEq

/-- The token is not yet active: a future `nbf` claim. -/
def notYetActive (now : ℤ) (c : Claims) : Bool :=
  match c.nbf with
  | some b => decide (now < b)
  | none => false

/-- The token is expired: an `exp` claim at or before `now`. -/
def isExpiredClaim (now : ℤ) (c : Claims) : Bool :=
  match c.exp with
  | some e => decide (e ≤ now)
  | none => false

/-- Modelled from the spec: `jsonwebtoken.verify`.  A malformed string or
a signature made with a different secret raises `JsonWebTokenError`; a
future `nbf` raises `NotBeforeError`; an elapsed `exp` raises
`TokenExpiredError`; otherwise the decoded claims are returned. -/
def jwtVerify (secret : String) (now : ℤ) : TokenStr → Except JwtVerifyError Claims
  | .malformed _ => .error .jsonWebToken
  | .signed s c =>
    if s ≠ secret then .error .jsonWebToken
    else if notYetActive now c then .error .notBefore
    else if isExpiredClaim now c then .error .tokenExpired
    else .ok c

/-- The per-error-class message selected in `validateToken`'s catch. -/
def jwtErrorMessage : JwtVerifyError → String
  | .tokenExpired => "Token has expired"
  | .jsonWebToken => "Malformed token"
  | .notBefore => "Token not active yet"
  | .otherError => "Invalid token"

/-- Model of `validateToken`. -/
def validateToken (secret : Option String) (now : ℤ) (t : TokenStr) :
    Except HttpError Claims :=
  match secret with
  | none => .error (HttpError.internalServerError "JWT secret not configured")
  | some sec =>
    if tokenIsBlank t then .error (HttpError.unauthorized "Token is required")
    else
      match jwtVerify sec now t with
      | .ok c => .ok c
      | .error e => .error (HttpError.unauthorized (jwtErrorMessage e))

/-- The request context seen by the auth middleware: token sources plus
the fields the middleware attaches. -/
structure Request where
  headerBearer : Option TokenStr
  queryToken : Option TokenStr
  cookieToken : Option TokenStr
  auth : Option Claims
  authToken : Option TokenStr
deriving DecidableEq

/-- Model of `extractToken` applied to the Authorization header: `headerBearer` is
the token carried after the leading "Bearer " marker (`none` when the header does not
start with "Bearer "); an empty token after trimming yields `null`. -/
def extractTokenFromHeader (req : Request) : Option TokenStr :=
  match req.headerBearer with
  | some t => if tokenIsBlank t then none else some t
  | none => none

/-- Model of `extractTokenFromRequest`: header first, then query, then cookie; a
falsy (empty-string) token source is skipped. -/
def extractTokenFromRequest (req : Request) : Option TokenStr :=
  match extractTokenFromHeader req with
  | some t => some t
  | none =>
    match req.queryToken with
    | some t => if tokenFalsy t then none else some t
    | none =>
      match req.cookieToken with
      | some t => if tokenFalsy t then none else some t
      | none => none

/-- Model of `requireAuth`: extract the token, validate it, and attach the decoded
claims and raw token to the request; `Except.error` models the middleware
sending the error response instead of calling `next`. -/
def requireAuth (secret : Option String) (now : ℤ) (req : Request) :
    Except HttpError Request :=
  match extractTokenFromRequest req with
  | none => .error (HttpError.unauthorized "Authentication token required")
  | some t =>
    match validateToken secret now t with
    | .ok decoded => .ok { req with auth := some decoded, authToken := some t }
    | .error e => .error e

/-- C7: token validation rejects as unauthorized, with a distinct message
per sub-case: expired ("Token has expired"), malformed or wrong secret
("Malformed token"), not yet valid ("Token not active yet"), any other
verify failure ("Invalid token"); a token signed with the configured
secret, active and unexpired validates to its claims, and `requireAuth`
attaches them to the request unmodified. -/
theorem jwt_auth_gate_cases (sec : String) (now : ℤ) :
    (∀ c, notYetActive now c = false → isExpiredClaim now c = true →
       validateToken (some sec) now (.signed sec c) =
         .error (HttpError.unauthorized "Token has expired")) ∧
    (∀ raw, jsTrim raw ≠ "" →
       validateToken (some sec) now (.malformed raw) =
         .error (HttpError.unauthorized "Malformed token")) ∧
    (∀ s c, s ≠ sec →
       validateToken (some sec) now (.signed s c) =
         .error (HttpError.unauthorized "Malformed token")) ∧
    (∀ c, notYetActive now c = true →
       validateToken (some sec) now (.signed sec c) =
         .error (HttpError.unauthorized "Token not active yet")) ∧
    (jwtErrorMessage .otherError = "Invalid token") ∧
    (∀ e1 e2, jwtErrorMessage e1 = jwtErrorMessage e2 → e1 = e2) ∧
    (∀ c req, notYetActive now c = false → isExpiredClaim now c = false →
       req.headerBearer = some (.signed sec c) →
       validateToken (some sec) now (.signed sec c) = .ok c ∧
       requireAuth (some sec) now req =
         .ok { req with auth := some c, authToken := some (.signed sec c) }) := by
  refine ⟨?_, ?_, ?_, ?_, rfl, ?_, ?_⟩
  · intro c h1 h2
    simp [validateToken, tokenIsBlank, jwtVerify, h1, h2, jwtErrorMessage]
  · intro raw h
    simp [validateToken, tokenIsBlank, jwtVerify, h, jwtErrorMessage]
  · intro s c h
    simp [validateToken, tokenIsBlank, jwtVerify, h, jwtErrorMessage]
  · intro c h1
    simp [validateToken, tokenIsBlank, jwtVerify, h1, jwtErrorMessage]
  · intro e1 e2 h
    cases e1 <;> cases e2 <;> first | rfl | exact absurd h (by decide)
  · intro c req h1 h2 hreq
    constructor
    · simp [validateToken, tokenIsBlank, jwtVerify, h1, h2]
    · simp [requireAuth, extractTokenFromRequest, extractTokenFromHeader, hreq,
        tokenIsBlank, validateToken, jwtVerify, h1, h2]

/-- Auth fixture: a request carrying a valid bearer token. -/
def authRequestSample : Request :=
  ⟨some (.signed "s3cret" ⟨some 2000, none, [("sub", "alice")]⟩), none, none, none, none⟩

/-- C7 witness: each rejection message and the success path, at concrete
tokens with secret "s3cret" and clock 1000. -/
theorem jwt_auth_gate_cases_witness :
    validateToken (some "s3cret") 1000 (.signed "s3cret" ⟨some 500, none, []⟩) =
      .error (HttpError.unauthorized "Token has expired") ∧
    validateToken (some "s3cret") 1000 (.malformed "garbage") =
      .error (HttpError.unauthorized "Malformed token") ∧
    validateToken (some "s3cret") 1000 (.signed "evil" ⟨none, none, []⟩) =
      .error (HttpError.unauthorized "Malformed token") ∧
    validateToken (some "s3cret") 1000 (.signed "s3cret" ⟨none, some 2000, []⟩) =
      .error (HttpError.unauthorized "Token not active yet") ∧
    requireAuth (some "s3cret") 1000 authRequestSample =
      .ok { authRequestSample with
            auth := some ⟨some 2000, none, [("sub", "alice")]⟩
            authToken := some (.signed "s3cret" ⟨some 2000, none, [("sub", "alice")]⟩) } :=
  ⟨(jwt_auth_gate_cases "s3cret" 1000).1 _ (by decide) (by decide),
   (jwt_auth_gate_cases "s3cret" 1000).2.1 "garbage" (by decide),
   (jwt_auth_gate_cases "s3cret" 1000).2.2.1 "evil" _ (by decide),
   (jwt_auth_gate_cases "s3cret" 1000).2.2.2.1 _ (by decide),
   ((jwt_auth_gate_cases "s3cret" 1000).2.2.2.2.2.2 _ authRequestSample
     (by decide) (by decide) rfl).2⟩

/- ## Claim C8: live-mode upstream error mapping (weatherApiClient.ts) -/

/-- The response-interceptor error mapping of `createApiClient`: the
upstream HTTP status (`error.response?.status`, absent on network
failures) is mapped to a typed `HttpError` via the `switch` plus the
`status >= 500` default branch. -/
def mapUpstreamError (status : Option ℕ) : HttpError :=
  match status with
  | some s =>
    if s = 401 then HttpError.unauthorized "Invalid Tomorrow.io API key"
    else if s = 403 then HttpError.forbidden "Tomorrow.io API access forbidden"
    else if s = 429 then HttpError.tooManyRequests "Tomorrow.io API rate limit exceeded"
    else if s = 404 then HttpError.notFound "Location not found"
    else if 500 ≤ s then HttpError.internalServerError "Tomorrow.io API server error"
    else HttpError.internalServerError "Failed to fetch weather data"
  | none => HttpError.internalServerError "Failed to fetch weather data"

/-- C8: each upstream failure maps to exactly one typed error: 401 to
unauthorized, 403 to forbidden, 404 to not-found "Location not found",
429 to too-many-requests, any status of at least 500 to an internal
provider-server-error, and every other failure (including a missing
status) to the generic internal fetch error. -/
theorem mapUpstreamError_cases :
    mapUpstreamError (some 401) = HttpError.unauthorized "Invalid Tomorrow.io API key" ∧
    mapUpstreamError (some 403) = HttpError.forbidden "Tomorrow.io API access forbidden" ∧
    mapUpstreamError (some 404) = HttpError.notFound "Location not found" ∧
    mapUpstreamError (some 429) =
      HttpError.tooManyRequests "Tomorrow.io API rate limit exceeded" ∧
    (∀ s : ℕ, 500 ≤ s →
       mapUpstreamError (some s) =
         HttpError.internalServerError "Tomorrow.io API server error") ∧
    (∀ s : ℕ, s ∉ ([401, 403, 404, 429] : List ℕ) → s < 500 →
       mapUpstreamError (some s) =
         HttpError.internalServerError "Failed to fetch weather data") ∧
    mapUpstreamError none = HttpError.internalServerError "Failed to fetch weather data" := by
  refine ⟨rfl, rfl, rfl, rfl, ?_, ?_, rfl⟩
  · intro s hs
    have h1 : s ≠ 401 := by omega
    have h2 : s ≠ 403 := by omega
    have h3 : s ≠ 429 := by omega
    have h4 : s ≠ 404 := by omega
    simp [mapUpstreamError, h1, h2, h3, h4, hs]
  · intro s hmem hlt
    simp only [List.mem_cons, List.not_mem_nil, or_false, not_or] at hmem
    obtain ⟨h1, h2, h3, h4⟩ := hmem
    simp [mapUpstreamError, h1, h2, h3, h4, Nat.not_le.2 hlt]

/-- C8 witness: a 503 maps to the provider-server-error and a 418 to the
generic fetch error. -/
theorem mapUpstreamError_cases_witness :
    mapUpstreamError (some 503) =
      HttpError.internalServerError "Tomorrow.io API server error" ∧
    mapUpstreamError (some 418) =
      HttpError.internalServerError "Failed to fetch weather data" :=
  ⟨mapUpstreamError_cases.2.2.2.2.1 503 (by decide),
   mapUpstreamError_cases.2.2.2.2.2.1 418 (by decide) (by decide)⟩

/- ## Claim C9: mock forecast payload vs transformForecastResponse -/

/-- Interval values of the live provider forecast schema
(`TomorrowForecastResponse`). -/
structure LiveIntervalValues where
  temperature : ℚ
  humidity : ℚ
  windSpeed : ℚ
  windDirection : ℚ
  precipitationIntensity : Option ℚ
  precipitationProbability : Option ℚ
  visibility : ℚ
  uvIndex : ℚ
  cloudCover : ℚ
  pressureSurfaceLevel : ℚ
  weatherCode : ℤ
deriving DecidableEq

/-- A live forecast interval (`startTime` plus values). -/
structure LiveInterval where
  startTime : String
  values : LiveIntervalValues
deriving DecidableEq

/-- One timeline of the live schema: a timestep tag and its intervals. -/
structure TimelineObj where
  timestep : String
  intervals : List LiveInterval
deriving DecidableEq

/-- Hourly values generated by `createMockForecast`. -/
structure MockHourlyValues where
  temperature : ℚ
  temperatureApparent : ℚ
  humidity : ℚ
  windSpeed : ℚ
  windDirection : ℚ
  precipitationProbability : ℚ
  visibility : ℚ
  uvIndex : ℚ
  cloudCover : ℚ
  weatherCode : ℤ

/-- Daily values generated by `createMockForecast`. -/
structure MockDailyValues where
  temperatureMax : ℚ
  temperatureMin : ℚ
  temperatureApparentMax : ℚ
  temperatureApparentMin : ℚ
  humidityAvg : ℚ
  windSpeedAvg : ℚ
  precipitationProbabilityMax : ℚ
  cloudCoverAvg : ℚ
  uvIndexMax : ℚ
  weatherCodeMax : ℤ
  sunriseTime : String
  sunsetTime : String

/-- Mock interval values are hourly- or daily-shaped. -/
inductive MockIntervalValues where
  | hourly (v : MockHourlyValues)
  | daily (v : MockDailyValues)

/-- A mock interval: a `time` field (not `startTime`) plus values. -/
structure MockInterval where
  time : String
  values : MockIntervalValues

/-- The dynamic JS value stored under `timelines`: the live client returns
an **array** of timeline objects, while the mock returns an **object**
keyed by "hourly" or "daily". -/
inductive TimelinesValue where
  | arr (timelines : List TimelineObj)
  | keyed (key : String) (intervals : List MockInterval)

/-- A forecast payload as consumed by the normalizer (typed `any` in the
source). -/
structure ForecastPayload where
  timelines : TimelinesValue
  location : Option Location

/-- JS indexing `timelines[0]`: an array yields its head, an object keyed
by "hourly"/"daily" has no property "0" and yields `undefined`. -/
def jsIndexZero : TimelinesValue → Option TimelineObj
  | .arr ts => ts.head?
  | .keyed _ _ => none

/-- One normalized forecast interval as built by
`transformForecastResponse` (the `Date` conversion of `startTime` is kept
as the string). -/
structure ForecastIntervalOut where
  time : String
  temperature : ℚ
  humidity : ℚ
  windSpeed : ℚ
  windDirection : ℚ
  precipitation : Precipitation
  visibility : ℚ
  uvIndex : ℚ
  cloudCover : ℚ
  pressure : ℚ
  weatherCode : ℤ
  description : String
deriving DecidableEq

/-- Model of `ForecastData` as produced by `transformForecastResponse`. -/
structure ForecastData where
  location : Location
  timestep : String
  intervals : List ForecastIntervalOut
deriving DecidableEq

/-- Model of `transformForecastResponse`: reads `apiResponse.timelines[0]` and maps
its intervals; `none` models the `TypeError` thrown when `timelines[0]` is
`undefined` (reading `.timestep` of `undefined`). -/
def transformForecastResponse (apiResponse : ForecastPayload) (location : Location) :
    Option ForecastData :=
  (jsIndexZero apiResponse.timelines).map fun timeline =>
    { location := location
      timestep := timeline.timestep
      intervals := timeline.intervals.map fun interval =>
        { time := interval.startTime
          temperature := interval.values.temperature
          humidity := interval.values.humidity
          windSpeed := interval.values.windSpeed
          windDirection := interval.values.windDirection
          precipitation := ⟨interval.values.precipitationIntensity,
                            interval.values.precipitationProbability⟩
          visibility := interval.values.visibility
          uvIndex := interval.values.uvIndex
          cloudCover := interval.values.cloudCover
          pressure := interval.values.pressureSurfaceLevel
          weatherCode := interval.values.weatherCode
          description := getWeatherDescription interval.values.weatherCode } }

/-- The `timesteps` request parameter: `'1h'` or `'1d'`. -/
inductive Timesteps where
  | oneHour
  | oneDay
deriving DecidableEq

/-- Model of `createMockForecast`.  `Math.random()` draws are modelled by the
oracle `rand` indexed by interval and call site, `Math.sin` by the oracle
`sinApprox`, and `Date#toISOString` by the oracle `isoOf` over epoch
milliseconds; none of them affects the payload's structure. -/
def createMockForecast (now : ℤ) (rand : ℕ → ℕ → ℚ) (sinApprox : ℚ → ℚ)
    (isoOf : ℤ → String) (lat lon : ℚ) (timesteps : Timesteps) : ForecastPayload :=
  let intervalCount : ℕ := match timesteps with | .oneHour => 24 | .oneDay => 7
  let intervalMs : ℤ := match timesteps with
    | .oneHour => 60 * 60 * 1000
    | .oneDay => 24 * 60 * 60 * 1000
  let timestepKey : String := match timesteps with | .oneHour => "hourly" | .oneDay => "daily"
  let intervals : List MockInterval := (List.range intervalCount).map fun (i : ℕ) =>
    let time : ℤ := now + (i : ℤ) * intervalMs
    match timesteps with
    | .oneHour =>
      let tv : ℚ := rand i 0 * 2 - 1
      { time := isoOf time
        values := .hourly
          { temperature := (jsMathRound ((20 + tv) * 10) : ℚ) / 10
            temperatureApparent := (jsMathRound ((20 + tv + 1) * 10) : ℚ) / 10
            humidity := (jsMathRound (50 + sinApprox (i * (3/10)) * 20) : ℚ)
            windSpeed := (jsMathRound ((3 + rand i 1 * 4) * 10) : ℚ) / 10
            windDirection := (((180 + i * 15) % 360 : ℕ) : ℚ)
            precipitationProbability :=
              if rand i 2 > 4/5 then (jsMathRound (rand i 3 * 80 + 20) : ℚ)
              else (jsMathRound (rand i 3 * 20) : ℚ)
            visibility := (jsMathRound ((12 + rand i 4 * 6) * 10) : ℚ) / 10
            uvIndex := ((max 0 (jsMathRound (7 + sinApprox (i * (1/5)) * 3)) : ℤ) : ℚ)
            cloudCover := (jsMathRound (rand i 5 * 80) : ℚ)
            weatherCode := if rand i 6 > 4/5 then 4000 else 1000 } }
    | .oneDay =>
      { time := isoOf time
        values := .daily
          { temperatureMax := (jsMathRound (22 * 10) : ℚ) / 10
            temperatureMin := (jsMathRound (18 * 10) : ℚ) / 10
            temperatureApparentMax := (jsMathRound (23 * 10) : ℚ) / 10
            temperatureApparentMin := (jsMathRound (19 * 10) : ℚ) / 10
            humidityAvg := (jsMathRound (50 + sinApprox (i * (3/10)) * 20) : ℚ)
            windSpeedAvg := (jsMathRound ((3 + rand i 1 * 4) * 10) : ℚ) / 10
            precipitationProbabilityMax :=
              if rand i 2 > 4/5 then (jsMathRound (rand i 3 * 80 + 20) : ℚ)
              else (jsMathRound (rand i 3 * 20) : ℚ)
            cloudCoverAvg := (jsMathRound (rand i 4 * 80) : ℚ)
            uvIndexMax := ((max 0 (jsMathRound (7 + sinApprox (i * (1/5)) * 3)) : ℤ) : ℚ)
            weatherCodeMax := if rand i 5 > 4/5 then 4000 else 1000
            sunriseTime := isoOf (time + 6 * 60 * 60 * 1000)
            sunsetTime := isoOf (time + 18 * 60 * 60 * 1000) } }
  { timelines := .keyed timestepKey intervals
    location := some ⟨some lat, some lon,
      some ("Mock Location " ++ toFixedStr lat 2 ++ ", " ++ toFixedStr lon 2), none⟩ }

/-- C9: for every timestep (and any randomness, clock and location), the
mock forecast payload stores `timelines` as an object keyed by
"hourly"/"daily", so `transformForecastResponse` — which reads
`timelines[0].timestep` — finds `undefined` and throws: the mock payload
is **not** structurally compatible with the normalizer. -/
theorem mock_forecast_breaks_normalizer (now : ℤ) (rand : ℕ → ℕ → ℚ)
    (sinApprox : ℚ → ℚ) (isoOf : ℤ → String) (lat lon : ℚ) (ts : Timesteps)
    (loc : Location) :
    transformForecastResponse (createMockForecast now rand sinApprox isoOf lat lon ts) loc =
      none := rfl
